import Mathlib

/-!
Verification of the admin-dashboard auth/session boundary: a shallow
embedding of the API client (token store and retry loop from
`src/lib/api-client.ts` with the defaults of `src/config/api.ts`), the
Express auth and role middleware (`middleware/auth.ts`), the auth routes
(`routes/auth.ts`), the theme route (`routes/theme.ts`), the avatar
delete route (`routes/upload.ts`), the client-side auth handlers of the
migration guide's `AuthProvider`, and the mock server's profile update
(`test-server/mock-server.js`).
-/

namespace Dashboard

/-! ### String helpers (JS `includes` / `startsWith` on char lists) -/

/-- Does the first list occur at the head of the second? Models JS
`String.startsWith` once strings are viewed as char lists. -/
def startsWithChars : List Char → List Char → Bool
  | [], _ => true
  | _ :: _, [] => false
  | a :: as, b :: bs => a == b && startsWithChars as bs

/-- Does `pat` occur as a contiguous run anywhere in the second list?
Models JS `String.includes`. -/
def containsChars (pat : List Char) : List Char → Bool
  | [] => startsWithChars pat []
  | c :: cs => startsWithChars pat (c :: cs) || containsChars pat cs

/-- JS `hay.includes(pat)`. -/
def strIncludes (hay pat : String) : Bool := containsChars pat.data hay.data

/-- JS `s.startsWith(pre)`. -/
def jsStartsWith (s pre : String) : Bool := startsWithChars pre.data s.data

/-! ### Client token store (`ApiClient.setToken` / `getToken`,
`src/lib/api-client.ts` lines 31-50) -/

/-- Browser `localStorage`, modelled as a key-to-value map. -/
def Storage : Type := String → Option String

/-- `localStorage.getItem`. -/
def storageGet (k : String) (st : Storage) : Option String := st k

/-- `localStorage.setItem`. -/
def storageSet (k v : String) (st : Storage) : Storage :=
  fun q => if q == k then some v else st q

/-- `localStorage.removeItem`. -/
def storageRemove (k : String) (st : Storage) : Storage :=
  fun q => if q == k then none else st q

/-- The `ApiClient` instance's client-visible state: the in-memory
`token` field and the browser storage. -/
structure ClientState where
  token : Option String
  storage : Storage

/-- `ApiClient.setToken`: stores the value in the `token` field and
writes it under the fixed key `auth_token` (or removes the key when the
argument is `null`). -/
def setToken (t : Option String) (s : ClientState) : ClientState :=
  match t with
  | some tok => { token := some tok, storage := storageSet "auth_token" tok s.storage }
  | none => { token := none, storage := storageRemove "auth_token" s.storage }

/-- `ApiClient.getToken`: returns the in-memory field; reads nothing
from storage. -/
def getToken (s : ClientState) : Option String := s.token

/-! ### Retry loop (`ApiClient.requestWithRetry` and
`shouldRetryError`, `src/lib/api-client.ts` lines 56-129) -/

/-- The message fragments `shouldRetryError` recognizes as network
errors. -/
def networkErrorPatterns : List String :=
  ["Failed to fetch", "NetworkError", "Network request failed", "timeout"]

/-- `ApiClient.shouldRetryError`: true iff the error message contains
one of the recognized network-error fragments. -/
def shouldRetryError (msg : String) : Bool :=
  networkErrorPatterns.any (fun m => strIncludes msg m)

/-- Outcome of one network attempt inside the `try` block: the fetch
resolves with an ok response carrying a JSON value, resolves with a
non-ok response of some status whose parsed body may carry an `error`
field (`none` models an unparsable body, handled by the
`.catch` default), or the fetch itself rejects with an error message
(network failure or abort-by-timeout). -/
inductive AttemptResult (T : Type) where
  | success (v : T)
  | httpFailure (status : Nat) (errField : Option String)
  | fetchFailure (msg : String)

/-- Message of the `Error` thrown for a non-ok response:
`error.error || 'API request failed'`, where an unparsable body was
replaced by `{ error: 'Request failed' }`. -/
def httpThrownMsg : Option String → String
  | none => "Request failed"
  | some s => if s == "" then "API request failed" else s

/-- The message of the error caught by the retry loop for one attempt
(`none` when the attempt succeeded). -/
def attemptError {T : Type} : AttemptResult T → Option String
  | .success _ => none
  | .httpFailure _ ef => some (httpThrownMsg ef)
  | .fetchFailure m => some m

/-- What one `requestWithRetry` call did: the value returned or error
thrown, the backoff delays slept (in order), and how many network
attempts were made. -/
structure RunOutcome (T : Type) where
  result : Except String T
  delays : List Nat
  attemptsMade : Nat
  deriving Repr

/-- The `for (let attempt = 0; attempt <= maxRetries; attempt++)` loop:
on success return the value; on error rethrow if this was the last
attempt or `shouldRetryError` rejects the message, else sleep
`retryDelay * 2 ^ attempt` and continue. `fuel` bounds the recursion
and always covers the remaining iterations. -/
def retryLoop {T : Type} (attempts : Nat → AttemptResult T) (maxRetries retryDelay : Nat) :
    Nat → Nat → RunOutcome T
  | _, 0 => ⟨.error "retries exhausted", [], 0⟩
  | attempt, fuel + 1 =>
    match attempts attempt with
    | .success v => ⟨.ok v, [], 1⟩
    | r =>
      let msg := (attemptError r).getD ""
      if attempt == maxRetries || !shouldRetryError msg then
        ⟨.error msg, [], 1⟩
      else
        let d := retryDelay * 2 ^ attempt
        let rest := retryLoop attempts maxRetries retryDelay (attempt + 1) fuel
        ⟨rest.result, d :: rest.delays, rest.attemptsMade + 1⟩

/-- `ApiClient.requestWithRetry` with explicit `maxRetries` and
`retryDelay`, run against an oracle giving each attempt's outcome. -/
def requestWithRetry {T : Type} (attempts : Nat → AttemptResult T)
    (maxRetries retryDelay : Nat) : RunOutcome T :=
  retryLoop attempts maxRetries retryDelay 0 (maxRetries + 1)

/-- `API_CONFIG.maxRetries` (src/config/api.ts). -/
def apiMaxRetries : Nat := 3

/-- `API_CONFIG.retryDelay` in milliseconds (src/config/api.ts). -/
def apiRetryDelay : Nat := 1000

/-- `requestWithRetry` at the configured defaults. -/
def requestWithRetryDefault {T : Type} (attempts : Nat → AttemptResult T) : RunOutcome T :=
  requestWithRetry attempts apiMaxRetries apiRetryDelay

/-! ### Server-side data model (profiles, user_passwords, user_roles,
theme_config tables of azure-sql-schema.sql) -/

/-- One row of the `profiles` table. -/
structure ProfileRow where
  id : String
  email : String
  displayName : Option String
  bio : Option String
  avatarUrl : Option String
  deriving DecidableEq, Repr

/-- The authoritative store: `profiles`, `user_passwords` (user_id,
password_hash), `user_roles` (user_id, role), and `theme_config`
(config_key, config_value). -/
structure ServerDB where
  profiles : List ProfileRow
  passwords : List (String × String)
  userRoles : List (String × String)
  themeConfig : List (String × String)
  deriving DecidableEq, Repr

/-- `dbo.has_role(@userId, @role)`: EXISTS a (user_id, role) row in
`user_roles`. -/
def hasRole (db : ServerDB) (uid role : String) : Bool :=
  db.userRoles.any (fun r => r.1 == uid && r.2 == role)

/-- Result of `jwt.verify` on the request's bearer token, as seen by
`authenticateToken`: no token attached, verification failed, or a
verified payload carrying `userId` and `email`. -/
inductive TokenVerification where
  | missing
  | invalid
  | valid (userId email : String)
  deriving DecidableEq, Repr

/-- A signed token as produced by `generateToken` (`jwt.sign` of
`{ userId, email }` with the server secret and 7-day expiry; the
signature and clock are abstracted away, only the payload matters to
the routes). -/
structure Jwt where
  userId : String
  email : String
  deriving DecidableEq, Repr

/-- `generateToken(userId, email)`. -/
def generateToken (userId email : String) : Jwt := ⟨userId, email⟩

/-! ### Validators (express-validator) and bcrypt, modelled as the
external libraries the routes call -/

/-- express-validator's `isEmail`, abstracted: exactly one `@`
separating a non-empty local part from a non-empty domain that
contains a dot. -/
def splitAtChar (sep : Char) : List Char → List (List Char)
  | [] => [[]]
  | c :: cs =>
    let parts := splitAtChar sep cs
    if c == sep then [] :: parts
    else
      match parts with
      | [] => [[c]]
      | h :: t => (c :: h) :: t

/-- Syntactic email check used by the `body('email').isEmail()`
validator. -/
def isEmail (e : String) : Bool :=
  match splitAtChar '@' e.data with
  | [lp, dp] => !lp.isEmpty && !dp.isEmpty && dp.contains '.'
  | _ => false

/-- express-validator's `normalizeEmail`, abstracted to its
lower-casing. -/
def normalizeEmail (e : String) : String := ⟨e.data.map Char.toLower⟩

/-- JS whitespace for `trim`. -/
def isWsChar (c : Char) : Bool := c == ' ' || c == '\t' || c == '\n' || c == '\r'

/-- JS `String.trim`. -/
def trimStr (s : String) : String :=
  ⟨((s.data.dropWhile isWsChar).reverse.dropWhile isWsChar).reverse⟩

/-- The bcrypt library's `hash`, modelled as a deterministic injective
encoding (salting abstracted away; only the compare-matches-hash
contract is relevant to the routes). -/
def bcryptHash (password : String) : String := "bcrypt$" ++ password

/-- The bcrypt library's `compare`. -/
def bcryptCompare (password hash : String) : Bool := hash == bcryptHash password

/-! ### Auth routes (`routes/auth.ts`) -/

/-- Response of `POST /auth/signin`: the 400 validation response, a
`{ error }` failure of a given status, or the 200 user-and-token
payload. -/
inductive SigninResp where
  | validationFailed
  | failure (status : Nat) (error : String)
  | ok (id : String) (email : String) (displayName : Option String) (token : Jwt)
  deriving DecidableEq, Repr

/-- The signin query: `profiles INNER JOIN user_passwords ON p.id =
up.user_id WHERE p.email = @email`, taking the first row. -/
def signinLookup (db : ServerDB) (email : String) : Option (ProfileRow × String) :=
  match db.profiles.find? (fun p => p.email == email) with
  | none => none
  | some p =>
    match db.passwords.find? (fun q => q.1 == p.id) with
    | none => none
    | some q => some (p, q.2)

/-- `POST /auth/signin`: validators (`isEmail`, password `notEmpty`),
then the join lookup, then `bcrypt.compare`; both the unknown-email
and the wrong-password branches answer 401 "Invalid credentials". -/
def signin (db : ServerDB) (email password : String) : SigninResp :=
  if !(isEmail email && password != "") then .validationFailed
  else
    match signinLookup db (normalizeEmail email) with
    | none => .failure 401 "Invalid credentials"
    | some (row, hash) =>
      if bcryptCompare password hash then
        .ok row.id row.email row.displayName (generateToken row.id row.email)
      else .failure 401 "Invalid credentials"

/-- Response of `POST /auth/signup`: 400 validation errors, the 400
"User already exists" duplicate response, or the 201 user-and-token
payload. -/
inductive SignupResp where
  | validationFailed
  | conflict
  | created (id : String) (email : String) (displayName : Option String) (token : Jwt)
  deriving DecidableEq, Repr

/-- HTTP status attached to each `SignupResp`. -/
def signupStatus : SignupResp → Nat
  | .validationFailed => 400
  | .conflict => 400
  | .created _ _ _ _ => 201

/-- The `body('displayName').optional().trim().isLength(\x7b max: 255 \x7d)`
validator. -/
def displayNameValid (dn : Option String) : Bool :=
  match dn with
  | none => true
  | some s => decide ((trimStr s).length ≤ 255)

/-- All three signup validators pass. -/
def signupValid (email password : String) (dn : Option String) : Bool :=
  isEmail email && decide (password.length ≥ 6) && displayNameValid dn

/-- `SELECT id FROM profiles WHERE email = @email` is non-empty. -/
def emailTaken (db : ServerDB) (email : String) : Bool :=
  db.profiles.any (fun p => p.email == email)

/-- The `displayName || null` value stored by the signup insert, after
the validator's trim: JS `||` sends the empty string (and absence) to
`null`. -/
def storedDisplayName (dn : Option String) : Option String :=
  match dn.map trimStr with
  | some s => if s == "" then none else some s
  | none => none

/-- `POST /auth/signup`: validators, duplicate check, then the three
inserts (profile row with `display_name = displayName || null`,
password hash, default `user` role) and the 201 response carrying the
new user and a token. `freshId` stands for the `crypto.randomUUID()`
result. -/
def signup (db : ServerDB) (email password : String) (dn : Option String)
    (freshId : String) : SignupResp × ServerDB :=
  if !signupValid email password dn then (.validationFailed, db)
  else
    let ne := normalizeEmail email
    if emailTaken db ne then (.conflict, db)
    else
      let newRow : ProfileRow := ⟨freshId, ne, storedDisplayName dn, none, none⟩
      (.created freshId ne (dn.map trimStr) (generateToken freshId ne),
       { db with profiles := db.profiles ++ [newRow],
                 passwords := db.passwords ++ [(freshId, bcryptHash password)],
                 userRoles := db.userRoles ++ [(freshId, "user")] })

/-! ### Theme route (`routes/theme.ts`) behind `authenticateToken` and
`requireAdmin` (`middleware/auth.ts`) -/

/-- One `MERGE` of the update loop: overwrite the value if the key
exists, else insert the pair. -/
def upsertKV (k v : String) (m : List (String × String)) : List (String × String) :=
  if m.any (fun p => p.1 == k) then m.map (fun p => if p.1 == k then (k, v) else p)
  else m ++ [(k, v)]

/-- The `for (const [key, value] of Object.entries(config))` upsert
loop. -/
def upsertAll (cfg m : List (String × String)) : List (String × String) :=
  cfg.foldl (fun acc kv => upsertKV kv.1 kv.2 acc) m

/-- `PUT /theme`: `authenticateToken` (401 when no token, 403 when
verification fails), then `requireAdmin` (401 when the payload has no
user id, 403 "Admin access required" when `dbo.has_role(uid,'admin')`
is false), and only then the handler, which upserts every pair of the
body's `config` object. Returns the (status, message) response and the
resulting store. -/
def putThemeRoute (auth : TokenVerification) (config : List (String × String))
    (db : ServerDB) : (Nat × String) × ServerDB :=
  match auth with
  | .missing => ((401, "Access token required"), db)
  | .invalid => ((403, "Invalid or expired token"), db)
  | .valid uid _ =>
    if uid == "" then ((401, "Authentication required"), db)
    else if !hasRole db uid "admin" then ((403, "Admin access required"), db)
    else ((200, "Theme configuration updated successfully"),
          { db with themeConfig := upsertAll config db.themeConfig })

/-! ### Avatar delete route (`routes/upload.ts`) -/

/-- `DELETE /upload/avatar/:filename`: after `authenticateToken`, the
ownership check `filename.startsWith(req.userId + '/')` gates the blob
deletion (`deleteIfExists`); on failure the route answers 403 "Access
denied" and touches nothing. The blob container is the list of stored
blob names. -/
def deleteAvatarRoute (auth : TokenVerification) (filename : String)
    (blobs : List String) : (Nat × String) × List String :=
  match auth with
  | .missing => ((401, "Access token required"), blobs)
  | .invalid => ((403, "Invalid or expired token"), blobs)
  | .valid uid _ =>
    if !jsStartsWith filename (uid ++ "/") then ((403, "Access denied"), blobs)
    else ((200, "Avatar deleted successfully"), blobs.filter (fun b => b != filename))

/-! ### Mock-server profile update (`test-server/mock-server.js`
lines 124-141) -/

/-- A JSON field value as the mock stores it: `null` or a string. -/
inductive JVal where
  | jnull
  | jstr (s : String)
  deriving DecidableEq, Repr

/-- JS truthiness of such a value: `null` and the empty string are
falsy. -/
def truthy : JVal → Bool
  | .jnull => false
  | .jstr s => s != ""

/-- A profile record of the mock's in-memory `profiles` map. -/
structure MockProfile where
  id : String
  email : String
  displayName : JVal
  bio : JVal
  avatarUrl : JVal
  deriving DecidableEq, Repr

/-- The `PUT /api/profiles/me` request body; `none` is an absent
(undefined) field. -/
structure UpdateBody where
  displayName : Option JVal
  bio : Option JVal
  avatarUrl : Option JVal
  deriving DecidableEq, Repr

/-- The mock's update expression:
`\x7b ...profile, ...(displayName && \x7b displayName \x7d),
...(bio !== undefined && \x7b bio \x7d),
...(avatarUrl !== undefined && \x7b avatarUrl \x7d) \x7d` —
`displayName` is spread only when truthy, `bio` and `avatarUrl`
whenever they are not undefined (including `null` and `""`). -/
def applyProfileUpdate (p : MockProfile) (b : UpdateBody) : MockProfile :=
  { p with
    displayName :=
      match b.displayName with
      | some v => if truthy v then v else p.displayName
      | none => p.displayName
    bio :=
      match b.bio with
      | some v => v
      | none => p.bio
    avatarUrl :=
      match b.avatarUrl with
      | some v => v
      | none => p.avatarUrl }

/-- The full `PUT /api/profiles/me` handler over the `profiles` map:
404 when the caller has no profile, else store and return the updated
record. -/
def putProfilesMe (uid : String) (b : UpdateBody)
    (profiles : List (String × MockProfile)) :
    (Nat × Option MockProfile) × List (String × MockProfile) :=
  match (profiles.find? (fun q => q.1 == uid)).map (fun q => q.2) with
  | none => ((404, none), profiles)
  | some p =>
    let p' := applyProfileUpdate p b
    ((200, some p'), profiles.map (fun q => if q.1 == uid then (uid, p') else q))

/-! ### Client-side auth handlers (`AuthProvider` of
`frontend-migration-guide.md` and the guide's profile submit handler) -/

/-- The `checkAuth` catch branch run when the app-launch
`getCurrentUser`/`getUserRoles` calls fail: `apiClient.setToken(null)`. -/
def checkAuthOnError (s : ClientState) : ClientState := setToken none s

/-- The `signOut` handler: `apiClient.setToken(null)` (plus UI state
resets that do not touch the token store). -/
def signOutClient (s : ClientState) : ClientState := setToken none s

/-- The guide's profile-submit catch branch: it only shows a toast with
the error message; the token store is untouched. -/
def profileUpdateOnError (_errMsg : String) (s : ClientState) : ClientState := s

/-- The `\x7b error \x7d` messages the server's auth layers answer with
(401/403 authentication failures). -/
def isAuthFailureMsg (msg : String) : Bool :=
  msg == "Access token required" || msg == "Invalid or expired token" ||
  msg == "Authentication required" || msg == "Invalid token" ||
  msg == "Token required" || msg == "Invalid credentials"

/-! ### Concrete instances used to instantiate the theorems -/

/-- Attempt oracle: two recognized network failures, then success. -/
def retryTwiceAttempts : Nat → AttemptResult Nat :=
  fun n =>
    if n == 0 then .fetchFailure "Failed to fetch"
    else if n == 1 then .fetchFailure "Connection timeout"
    else .success 42

/-- Attempt oracle: a 400 response whose server-supplied error message
contains the fragment `timeout`, then success. -/
def http400TimeoutAttempts : Nat → AttemptResult Nat :=
  fun n => if n == 0 then .httpFailure 400 (some "Gateway timeout") else .success 7

/-- A store holding one non-admin identity and one theme key. -/
def nonAdminDb : ServerDB :=
  ⟨[⟨"u1", "a@x.com", some "Al", none, none⟩],
   [("u1", bcryptHash "pw123456")], [("u1", "user")],
   [("primary_color", "222 47% 11%")]⟩

/-- A store holding one registered identity with a known password. -/
def oneUserDb : ServerDB :=
  ⟨[⟨"u1", "a@x.com", some "Al", none, none⟩],
   [("u1", bcryptHash "password123")], [("u1", "user")], []⟩

/-- A client state holding a persisted bearer token. -/
def tokenedClient : ClientState :=
  ⟨some "tok", storageSet "auth_token" "tok" (fun _ => none)⟩

/-- A stored mock profile with all three optional fields populated or
null. -/
def mockP : MockProfile := ⟨"u", "e@x.com", .jstr "Name", .jnull, .jnull⟩

/-! ## Theorems -/

/-- C9: after `setToken t`, `getToken` returns `t`; when `t` is a
string it sits in storage under the fixed key `auth_token`, and
`setToken null` removes the key, so the stored value always mirrors
the in-memory one; `getToken` reads only the in-memory field (its
result is unchanged if the storage is replaced wholesale). -/
theorem c9_token_roundtrip (t : Option String) (s : ClientState) :
    getToken (setToken t s) = t
    ∧ storageGet "auth_token" (setToken t s).storage = t
    ∧ getToken s = getToken ⟨s.token, fun _ => none⟩ := by
  refine ⟨?_, ?_, rfl⟩
  · cases t <;> rfl
  · cases t <;> simp [setToken, storageGet, storageSet, storageRemove]

/-- C6 counterexample: an API call (the guide's profile submit)
completes with the server's authentication-failure message, yet the
client's catch branch leaves both the in-memory token and the
persisted `auth_token` entry in place — the claim that every
authentication failure clears the persisted token is false. -/
theorem c6_counterexample :
    isAuthFailureMsg "Invalid or expired token" = true
    ∧ getToken (profileUpdateOnError "Invalid or expired token" tokenedClient) = some "tok"
    ∧ storageGet "auth_token"
        (profileUpdateOnError "Invalid or expired token" tokenedClient).storage
        = some "tok" := by
  refine ⟨by decide, rfl, ?_⟩
  simp [profileUpdateOnError, tokenedClient, storageGet, storageSet]

/-- C6 (amended): the token is cleared (memory and storage) on
sign-out and when the app-launch auth check fails; an authentication
failure surfaced by other API calls, such as the profile update,
leaves the client state — hence the persisted token — unchanged. -/
theorem c6_amended_token_clearing (s : ClientState) (m : String) :
    getToken (signOutClient s) = none
    ∧ storageGet "auth_token" (signOutClient s).storage = none
    ∧ getToken (checkAuthOnError s) = none
    ∧ storageGet "auth_token" (checkAuthOnError s).storage = none
    ∧ profileUpdateOnError m s = s := by
  refine ⟨rfl, ?_, rfl, ?_, rfl⟩ <;>
    simp [signOutClient, checkAuthOnError, setToken, storageGet, storageRemove]

/-- C2: when the first two attempts fail with messages the client
recognizes as network errors and the third succeeds, the call (at the
default `maxRetries = 3`) returns the successful value, makes exactly
three attempts, and sleeps exactly the two backoff delays
`base * 1` and `base * 2` milliseconds before the second and third
attempts. -/
theorem c2_retry_backoff {T : Type} (base : Nat) (v : T) (m1 m2 : String)
    (attempts : Nat → AttemptResult T)
    (h1 : shouldRetryError m1 = true) (h2 : shouldRetryError m2 = true)
    (a0 : attempts 0 = .fetchFailure m1) (a1 : attempts 1 = .fetchFailure m2)
    (a2 : attempts 2 = .success v) :
    requestWithRetry attempts 3 base = ⟨.ok v, [base * 1, base * 2], 3⟩ := by
  simp [requestWithRetry, retryLoop, a0, a1, a2, h1, h2, attemptError, pow_succ]

/-- C2 witness: the backoff run at `base = 1000` on a concrete oracle
whose first two attempts are recognized network failures. -/
theorem c2_retry_backoff_witness :
    requestWithRetry retryTwiceAttempts 3 1000 = ⟨.ok 42, [1000 * 1, 1000 * 2], 3⟩ :=
  c2_retry_backoff 1000 42 "Failed to fetch" "Connection timeout" retryTwiceAttempts
    (by decide) (by decide) rfl rfl rfl

/-- C3 (code defect): a 400 response is converted to a plain `Error`
carrying the server-supplied message, and the retry decision then
string-matches that message; a 400 whose body reads "Gateway timeout"
is therefore retried — two network attempts and a backoff delay —
although the code's own comment says 4xx responses are never
retried. -/
theorem c3_http400_retried_eval :
    requestWithRetryDefault http400TimeoutAttempts = ⟨.ok 7, [1000], 2⟩
    ∧ (requestWithRetryDefault http400TimeoutAttempts).attemptsMade ≠ 1 :=
  ⟨rfl, by decide⟩

/-- C1: a PUT /theme request carrying a verified token whose (nonempty)
identity id holds no admin role assignment is answered 403
"Admin access required" by the admin gate, and the store — in
particular the theme configuration — is returned unchanged: the
handler never runs. -/
theorem c1_admin_gate_denies_non_admin (db : ServerDB) (uid em : String)
    (cfg : List (String × String)) (hne : (uid == "") = false)
    (hrole : hasRole db uid "admin" = false) :
    putThemeRoute (.valid uid em) cfg db = ((403, "Admin access required"), db) := by
  simp [putThemeRoute, hne, hrole]

/-- C1 witness: the non-admin identity `u1` issuing the spec's
scenario PUT is denied and the stored theme value is unchanged. -/
theorem c1_admin_gate_witness :
    putThemeRoute (.valid "u1" "a@x.com") [("primary_color", "0 0% 0%")] nonAdminDb
      = ((403, "Admin access required"), nonAdminDb) :=
  c1_admin_gate_denies_non_admin nonAdminDb "u1" "a@x.com"
    [("primary_color", "0 0% 0%")] (by decide) (by decide)

/-- C4: the sign-in failure response for an unknown email and the one
for a known email with a wrong password are the same value — status
401 with the undifferentiated "Invalid credentials" message — so the
response reveals nothing about whether the email is registered; and a
matching email/password pair yields the identity and a token. -/
theorem c4_signin_undifferentiated (db : ServerDB) (e1 p1 e2 p2 : String)
    (row : ProfileRow) (hash : String)
    (hv1 : isEmail e1 = true) (hp1 : (p1 != "") = true)
    (hu : signinLookup db (normalizeEmail e1) = none)
    (hv2 : isEmail e2 = true) (hp2 : (p2 != "") = true)
    (hf : signinLookup db (normalizeEmail e2) = some (row, hash))
    (hm : bcryptCompare p2 hash = false) :
    signin db e1 p1 = .failure 401 "Invalid credentials"
    ∧ signin db e2 p2 = .failure 401 "Invalid credentials"
    ∧ signin db e1 p1 = signin db e2 p2
    ∧ (∀ e3 p3 row3 hash3, isEmail e3 = true → (p3 != "") = true →
        signinLookup db (normalizeEmail e3) = some (row3, hash3) →
        bcryptCompare p3 hash3 = true →
        signin db e3 p3 = .ok row3.id row3.email row3.displayName
          (generateToken row3.id row3.email)) := by
  have g1 : signin db e1 p1 = .failure 401 "Invalid credentials" := by
    simp [signin, hv1, hp1, hu]
  have g2 : signin db e2 p2 = .failure 401 "Invalid credentials" := by
    simp [signin, hv2, hp2, hf, hm]
  refine ⟨g1, g2, g1.trans g2.symm, ?_⟩
  intro e3 p3 row3 hash3 hv3 hp3 hf3 hm3
  simp [signin, hv3, hp3, hf3, hm3]

/-- C4 witness: against a store registering only `a@x.com`, signing in
with the unknown `b@x.com` and with `a@x.com` plus a wrong password
yield the identical 401 response; the correct pair returns the
identity and token. -/
theorem c4_signin_witness :
    signin oneUserDb "b@x.com" "pw" = .failure 401 "Invalid credentials"
    ∧ signin oneUserDb "a@x.com" "wrong" = .failure 401 "Invalid credentials"
    ∧ signin oneUserDb "b@x.com" "pw" = signin oneUserDb "a@x.com" "wrong"
    ∧ signin oneUserDb "a@x.com" "password123"
        = .ok "u1" "a@x.com" (some "Al") (generateToken "u1" "a@x.com") := by
  have h := c4_signin_undifferentiated oneUserDb "b@x.com" "pw" "a@x.com" "wrong"
    ⟨"u1", "a@x.com", some "Al", none, none⟩ (bcryptHash "password123")
    (by decide) (by decide) (by decide) (by decide) (by decide) (by decide) (by decide)
  exact ⟨h.1, h.2.1, h.2.2.1,
    h.2.2.2 "a@x.com" "password123" ⟨"u1", "a@x.com", some "Al", none, none⟩
      (bcryptHash "password123") (by decide) (by decide) (by decide) (by decide)⟩

/-- C5: sign-up answers the 400 validation response when the email is
malformed or the password is shorter than 6 characters (store
untouched); answers the duplicate-email conflict response with the
store — hence the previously registered identity — unchanged; and
otherwise inserts the profile row, the credential, and the default
`user` role assignment, responding 201 with the new identity and a
token. -/
theorem c5_signup_behaviour (db : ServerDB) (e p : String) (dn : Option String)
    (f : String) :
    (isEmail e = false → signup db e p dn f = (.validationFailed, db))
    ∧ (p.length < 6 → signup db e p dn f = (.validationFailed, db))
    ∧ (signupValid e p dn = true → emailTaken db (normalizeEmail e) = true →
        signup db e p dn f = (.conflict, db))
    ∧ (signupValid e p dn = true → emailTaken db (normalizeEmail e) = false →
        signup db e p dn f =
          (.created f (normalizeEmail e) (dn.map trimStr)
             (generateToken f (normalizeEmail e)),
           { db with
              profiles := db.profiles ++
                [⟨f, normalizeEmail e, storedDisplayName dn, none, none⟩],
              passwords := db.passwords ++ [(f, bcryptHash p)],
              userRoles := db.userRoles ++ [(f, "user")] }))
    ∧ signupStatus SignupResp.validationFailed = 400
    ∧ signupStatus SignupResp.conflict = 400
    ∧ (∀ i em d t, signupStatus (SignupResp.created i em d t) = 201) := by
  refine ⟨?_, ?_, ?_, ?_, rfl, rfl, fun i em d t => rfl⟩
  · intro h; simp [signup, signupValid, h]
  · intro h
    have hd : (decide (p.length ≥ 6)) = false := decide_eq_false (by omega)
    simp [signup, signupValid, hd]
  · intro hv ht; simp [signup, hv, ht]
  · intro hv ht; simp [signup, hv, ht]

/-- C5 witness: the malformed email `ax.com`, the short password `pw`,
a duplicate sign-up against a store already holding `a@x.com`, and a
fresh successful sign-up, each evaluated concretely. -/
theorem c5_signup_witness :
    signup ⟨[], [], [], []⟩ "ax.com" "password123" none "u1"
      = (.validationFailed, ⟨[], [], [], []⟩)
    ∧ signup ⟨[], [], [], []⟩ "a@x.com" "pw" none "u1"
      = (.validationFailed, ⟨[], [], [], []⟩)
    ∧ signup oneUserDb "a@x.com" "password123" none "u2" = (.conflict, oneUserDb)
    ∧ signup ⟨[], [], [], []⟩ "a@x.com" "password123" (some "Al") "u1"
      = (.created "u1" "a@x.com" (some "Al") (generateToken "u1" "a@x.com"),
         ⟨[⟨"u1", "a@x.com", some "Al", none, none⟩],
          [("u1", bcryptHash "password123")], [("u1", "user")], []⟩) := by
  refine ⟨(c5_signup_behaviour ⟨[], [], [], []⟩ "ax.com" "password123" none "u1").1
      (by decide),
    (c5_signup_behaviour ⟨[], [], [], []⟩ "a@x.com" "pw" none "u1").2.1 (by decide),
    (c5_signup_behaviour oneUserDb "a@x.com" "password123" none "u2").2.2.1
      (by decide) (by decide), ?_⟩
  have h := (c5_signup_behaviour ⟨[], [], [], []⟩ "a@x.com" "password123"
    (some "Al") "u1").2.2.2.1 (by decide) (by decide)
  exact h

/-- C7: a body containing only `bio` sets `bio` and leaves
`displayName` and `avatarUrl` at their prior stored values, and in
general every field absent from the body retains its prior stored
value. -/
theorem c7_partial_update_frame (p : MockProfile) (s : String) (b : UpdateBody) :
    (applyProfileUpdate p ⟨none, some (.jstr s), none⟩).bio = .jstr s
    ∧ (applyProfileUpdate p ⟨none, some (.jstr s), none⟩).displayName = p.displayName
    ∧ (applyProfileUpdate p ⟨none, some (.jstr s), none⟩).avatarUrl = p.avatarUrl
    ∧ (b.displayName = none → (applyProfileUpdate p b).displayName = p.displayName)
    ∧ (b.bio = none → (applyProfileUpdate p b).bio = p.bio)
    ∧ (b.avatarUrl = none → (applyProfileUpdate p b).avatarUrl = p.avatarUrl) := by
  refine ⟨rfl, rfl, rfl, ?_, ?_, ?_⟩ <;> intro h <;> simp [applyProfileUpdate, h]

/-- C7 witness: updating the stored profile `mockP` with
`\x7b bio: "x" \x7d` sets bio and keeps the other two fields. -/
theorem c7_partial_update_witness :
    (applyProfileUpdate mockP ⟨none, some (.jstr "x"), none⟩).bio = .jstr "x"
    ∧ (applyProfileUpdate mockP ⟨none, some (.jstr "x"), none⟩).displayName
        = .jstr "Name"
    ∧ (applyProfileUpdate mockP ⟨none, some (.jstr "x"), none⟩).avatarUrl = .jnull
    ∧ (applyProfileUpdate mockP ⟨none, none, none⟩).displayName = .jstr "Name" := by
  have h := c7_partial_update_frame mockP "x" ⟨none, none, none⟩
  exact ⟨h.1, h.2.1, h.2.2.1, h.2.2.2.1 rfl⟩

/-- C8: an authenticated avatar-delete request whose filename does not
start with the caller's identity id followed by `/` is answered 403
"Access denied" and the blob container is returned unchanged — the
deletion branch is unreachable without the ownership prefix. -/
theorem c8_avatar_delete_ownership (uid em filename : String) (blobs : List String)
    (h : jsStartsWith filename (uid ++ "/") = false) :
    deleteAvatarRoute (.valid uid em) filename blobs
      = ((403, "Access denied"), blobs) := by
  simp [deleteAvatarRoute, h]

/-- C8 witness: the spec's scenario — user `me` asking to delete
`other-user-id/file.png` — is rejected and the blob survives. -/
theorem c8_avatar_delete_witness :
    deleteAvatarRoute (.valid "me" "m@x.com") "other-user-id/file.png"
      ["other-user-id/file.png"]
      = ((403, "Access denied"), ["other-user-id/file.png"]) :=
  c8_avatar_delete_ownership "me" "m@x.com" "other-user-id/file.png"
    ["other-user-id/file.png"] (by decide)

/-- C10: in the mock profile update, an empty-string (or null)
`displayName` is falsy and therefore treated as absent, keeping the
prior value; `bio` and `avatarUrl` are applied whenever present,
including empty-string and null; and after any update `displayName` is
either unchanged or a truthy (non-empty, non-null) value — it can
never be cleared through this endpoint. -/
theorem c10_displayname_truthiness (p : MockProfile) (b : UpdateBody) (v : JVal) :
    (applyProfileUpdate p ⟨some (.jstr ""), b.bio, b.avatarUrl⟩).displayName
      = p.displayName
    ∧ (applyProfileUpdate p ⟨some .jnull, b.bio, b.avatarUrl⟩).displayName
      = p.displayName
    ∧ (applyProfileUpdate p ⟨b.displayName, some v, b.avatarUrl⟩).bio = v
    ∧ (applyProfileUpdate p ⟨b.displayName, b.bio, some v⟩).avatarUrl = v
    ∧ ((applyProfileUpdate p b).displayName = p.displayName
        ∨ truthy (applyProfileUpdate p b).displayName = true) := by
  refine ⟨rfl, rfl, rfl, rfl, ?_⟩
  rcases hb : b.displayName with _ | w
  · exact Or.inl (by simp [applyProfileUpdate, hb])
  · rcases ht : truthy w with _ | _
    · exact Or.inl (by simp [applyProfileUpdate, hb, ht])
    · exact Or.inr (by simp [applyProfileUpdate, hb, ht])

end Dashboard
